import Mathlib

/-!
Verification of the `caws` encrypted-vault subsystem and derived-credential
cache, shallowly embedded from the Go source (`crypto.go`, `vault.go`,
`aws.go`, `commands.go`).

Modelling conventions:
* Byte strings are `List Nat`.
* Argon2id (`deriveKey`) is modelled ideally as a collision-free deterministic
  function: the derived key is represented by the `(password, salt)` pair
  itself.  This is the standard ideal-KDF abstraction; the real function has
  collisions only with negligible probability.
* AES-256-GCM is modelled as an ideal AEAD: `gcmSeal` records the plaintext
  together with an unforgeable tag `(key, nonce, plaintext)`; `gcmOpen`
  succeeds exactly when the tag matches the supplied key and nonce.
* Base64 fields of the on-disk container are modelled by their decode result:
  `some bytes` for a well-formed field, `none` for a malformed one.
* JSON (de)serialisation of the vault payload is modelled by an injective
  embedding with explicit non-well-formed values (`Plain.invalid`).
* Randomness (`crypto/rand` reads for salt and nonce) is modelled by passing
  the drawn values as explicit arguments.
-/

/-- `ProfileData` from `crypto.go`: stored credentials for one profile. -/
structure ProfileData where
  accessKey : String
  secretKey : String
  region : String
  mfaSerial : String
  deriving DecidableEq, Repr

/-- `VaultData` from `crypto.go`: the decrypted vault contents, a map from
profile name to `ProfileData` (represented as an association list). -/
structure VaultData where
  profiles : List (String × ProfileData)
  deriving DecidableEq, Repr

/-- Plaintext of the AEAD: either the JSON encoding of a `VaultData` value or
an arbitrary non-well-formed byte string. -/
inductive Plain where
  | jsonOf (d : VaultData)
  | invalid (junk : Nat)
  deriving DecidableEq, Repr

/-- `json.Marshal` of a `VaultData` value (injective embedding). -/
def marshalVaultData (d : VaultData) : Plain := .jsonOf d

/-- `json.Unmarshal` of AEAD plaintext into `VaultData`. -/
def unmarshalVaultData : Plain → Option VaultData
  | .jsonOf d => some d
  | .invalid _ => none

/-- Derived symmetric key.  Ideal model: the key is the `(password, salt)`
pair itself, making Argon2id collision-free by construction. -/
def DerivedKey : Type := String × List Nat
deriving instance DecidableEq, Repr for DerivedKey

/-- `deriveKey` from `crypto.go`: Argon2id with fixed parameters
(time=1, memory=64MiB, threads=4, 32-byte output), modelled ideally. -/
def deriveKey (password : String) (salt : List Nat) : DerivedKey :=
  (password, salt)

/-- An AES-256-GCM ciphertext: the sealed body together with the
authentication tag.  Ideal model: the tag records the sealing key, nonce and
plaintext, and cannot be forged. -/
structure GCMCiphertext where
  body : Plain
  tag : DerivedKey × List Nat × Plain
  deriving DecidableEq, Repr

/-- `gcm.Seal`: encrypt and authenticate under `key` and `nonce`. -/
def gcmSeal (key : DerivedKey) (nonce : List Nat) (pt : Plain) : GCMCiphertext :=
  ⟨pt, (key, nonce, pt)⟩

/-- `gcm.Open`: decrypt and verify; fails closed (returns `none`, never
partial plaintext) whenever the tag does not verify under `key` and `nonce`. -/
def gcmOpen (key : DerivedKey) (nonce : List Nat) (c : GCMCiphertext) : Option Plain :=
  if c.tag = (key, nonce, c.body) then some c.body else none

/-- `VaultFile` from `crypto.go`: the on-disk container.  The three base64
string fields are modelled by their decode results (`none` = malformed). -/
structure VaultFile where
  version : Int
  salt : Option (List Nat)
  nonce : Option (List Nat)
  data : Option GCMCiphertext
  deriving DecidableEq, Repr

/-- `vaultVersion` from `crypto.go`: the single supported format version. -/
def vaultVersion : Int := 1

/-- The distinct failure causes of `decryptVault` (the Go code returns
distinct `fmt.Errorf` messages for each). -/
inductive DecryptError where
  | badVersion
  | badSaltB64
  | badNonceB64
  | badDataB64
  | authFailed
  | badPayloadJson
  deriving DecidableEq, Repr

/-- `encryptVault` from `crypto.go`.  The freshly drawn random salt and nonce
are passed explicitly (the Go code reads them from `crypto/rand`). -/
def encryptVault (password : String) (data : VaultData)
    (salt nonce : List Nat) : VaultFile :=
  let key := deriveKey password salt
  let plaintext := marshalVaultData data
  { version := vaultVersion
    salt := some salt
    nonce := some nonce
    data := some (gcmSeal key nonce plaintext) }

/-- `decryptVault` from `crypto.go`: version check, base64 decoding of the
three fields, key derivation from the stored salt, authenticated decryption,
JSON unmarshalling. -/
def decryptVault (password : String) (vf : VaultFile) :
    Except DecryptError VaultData :=
  if vf.version ≠ vaultVersion then .error .badVersion
  else match vf.salt with
  | none => .error .badSaltB64
  | some salt =>
    match vf.nonce with
    | none => .error .badNonceB64
    | some nonce =>
      match vf.data with
      | none => .error .badDataB64
      | some ct =>
        let key := deriveKey password salt
        match gcmOpen key nonce ct with
        | none => .error .authFailed
        | some pt =>
          match unmarshalVaultData pt with
          | none => .error .badPayloadJson
          | some d => .ok d

/-! ## Filesystem, lock and session layer (`vault.go`) -/

/-- Contents of a file in the model filesystem: a well-formed JSON container,
a lock marker holding a process id, or unparseable bytes. -/
inductive FileContent where
  | vaultJson (vf : VaultFile)
  | lockPid (pid : Nat)
  | raw (junk : Nat)
  deriving DecidableEq, Repr

/-- The model filesystem: a partial map from paths to file contents. -/
def Fs : Type := String → Option FileContent

/-- Write (create or truncate) a file. -/
def setFile (fs : Fs) (p : String) (c : FileContent) : Fs :=
  fun q => if q = p then some c else fs q

/-- Remove a file (`os.Remove`). -/
def removeFile (fs : Fs) (p : String) : Fs :=
  fun q => if q = p then none else fs q

/-- Rename `src` over `dst` (`os.Rename`): `dst` takes `src`'s contents and
`src` disappears, atomically. -/
def renameFile (fs : Fs) (src dst : String) : Fs :=
  fun q => if q = dst then fs src else if q = src then none else fs q

/-- A single filesystem mutation performed by the vault code. -/
inductive FsStep where
  | write (p : String) (c : FileContent)
  | rename (src dst : String)
  | remove (p : String)
  deriving DecidableEq, Repr

/-- Apply one filesystem step. -/
def applyFsStep (fs : Fs) : FsStep → Fs
  | .write p c => setFile fs p c
  | .rename src dst => renameFile fs src dst
  | .remove p => removeFile fs p

/-- Apply a sequence of filesystem steps in order. -/
def runFsSteps (fs : Fs) (steps : List FsStep) : Fs :=
  steps.foldl applyFsStep fs

/-- Path of the sibling lock marker file (`<vault-path>.lock`). -/
def lockPathOf (vaultPath : String) : String := vaultPath ++ ".lock"

/-- Path of the temporary sibling file used by atomic saves
(`<vault-path>.tmp`). -/
def tmpPathOf (vaultPath : String) : String := vaultPath ++ ".tmp"

/-- Whether the lock marker for `vaultPath` currently exists. -/
def lockHeldIn (fs : Fs) (vaultPath : String) : Bool :=
  (fs (lockPathOf vaultPath)).isSome

/-- `VaultClient` from `vault.go`: an open session (path and password; the
lock-file handle is represented by the lock marker in the filesystem). -/
structure VaultClientM where
  vaultPath : String
  password : String

/-- Errors of `loadVault`/`verifyPassword`: read failure, container JSON
parse failure, or a decryption failure. -/
inductive LoadError where
  | readFailed
  | badFileJson
  | dec (e : DecryptError)
  deriving DecidableEq, Repr

/-- `loadVault` from `vault.go`: read the container file, parse it, decrypt
it with the session password. -/
def loadVault (v : VaultClientM) (fs : Fs) : Except LoadError VaultData :=
  match fs v.vaultPath with
  | none => .error .readFailed
  | some (.lockPid _) => .error .badFileJson
  | some (.raw _) => .error .badFileJson
  | some (.vaultJson vf) =>
    match decryptVault v.password vf with
    | .error e => .error (.dec e)
    | .ok d => .ok d

/-- `verifyPassword` from `vault.go`: read, parse and trial-decrypt the
container at `vaultPath` with `password` (same semantics as `loadVault`). -/
def verifyPassword (fs : Fs) (vaultPath password : String) :
    Except LoadError VaultData :=
  loadVault ⟨vaultPath, password⟩ fs

/-- `saveVault` from `vault.go`, as the sequence of filesystem steps it
performs: write the freshly encrypted container to the temporary sibling
file, then atomically rename it over the real path. -/
def saveVaultSteps (v : VaultClientM) (data : VaultData)
    (salt nonce : List Nat) : List FsStep :=
  [.write (tmpPathOf v.vaultPath)
      (.vaultJson (encryptVault v.password data salt nonce)),
   .rename (tmpPathOf v.vaultPath) v.vaultPath]

/-- The mutual-exclusion error of `acquireVaultLock`. -/
inductive LockError where
  | contended
  deriving DecidableEq, Repr

/-- `acquireVaultLock` from `vault.go`: exclusive creation
(`O_CREATE|O_EXCL`) of the sibling lock marker containing the caller's pid;
fails immediately with the contended error if the marker already exists. -/
def acquireVaultLock (fs : Fs) (vaultPath : String) (pid : Nat) :
    Except LockError Fs :=
  if (fs (lockPathOf vaultPath)).isSome then .error .contended
  else .ok (setFile fs (lockPathOf vaultPath) (.lockPid pid))

/-- `VaultClient.Close` from `vault.go`: release the lock by removing the
marker file. -/
def closeVaultClient (v : VaultClientM) (fs : Fs) : Fs :=
  removeFile fs (lockPathOf v.vaultPath)

/-- Error taxonomy surfaced by the session layer. -/
inductive VError where
  | notFound
  | contended
  | ioFailure
  | incorrectPasswordOrCorrupted
  | alreadyExists
  | passwordsDoNotMatch
  deriving DecidableEq, Repr

/-- `NewVaultClient` from `vault.go`: check the vault exists, acquire the
lock, read the password (`pwRead` models the interactive prompt result),
verify it by trial decryption; on a failed password read or failed
verification the lock marker is removed again.  Any verification failure is
collapsed into the single `incorrectPasswordOrCorrupted` error.  Returns the
result together with the resulting filesystem. -/
def NewVaultClientRun (fs : Fs) (vaultPath : String) (pid : Nat)
    (pwRead : Except Unit String) : Except VError VaultClientM × Fs :=
  if (fs vaultPath).isNone then (.error .notFound, fs)
  else
    match acquireVaultLock fs vaultPath pid with
    | .error .contended => (.error .contended, fs)
    | .ok fs1 =>
      match pwRead with
      | .error _ => (.error .ioFailure, removeFile fs1 (lockPathOf vaultPath))
      | .ok password =>
        match verifyPassword fs1 vaultPath password with
        | .error _ => (.error .incorrectPasswordOrCorrupted,
            removeFile fs1 (lockPathOf vaultPath))
        | .ok _ => (.ok ⟨vaultPath, password⟩, fs1)

/-- Go map assignment `data.Profiles[profile] = pd`: insert or overwrite. -/
def insertProfile (l : List (String × ProfileData)) (name : String)
    (pd : ProfileData) : List (String × ProfileData) :=
  match l with
  | [] => [(name, pd)]
  | (k, v) :: rest =>
    if k = name then (name, pd) :: rest else (k, v) :: insertProfile rest name pd

/-- Go map lookup `data.Profiles[profile]`. -/
def lookupProfile (l : List (String × ProfileData)) (name : String) :
    Option ProfileData :=
  match l with
  | [] => none
  | (k, v) :: rest => if k = name then some v else lookupProfile rest name

/-- Go `delete(data.Profiles, profile)`. -/
def removeProfileEntry (l : List (String × ProfileData)) (name : String) :
    List (String × ProfileData) :=
  match l with
  | [] => []
  | (k, v) :: rest =>
    if k = name then rest else (k, v) :: removeProfileEntry rest name

/-- The kinds of vault operations the specification constrains to run under
the lock. -/
inductive EvKind where
  | derive
  | decrypt
  | encrypt
  | readVault
  | fsOp (s : FsStep)
  deriving DecidableEq, Repr

/-- One instrumented operation, tagged with whether the vault lock marker
existed at the moment it ran. -/
def Event : Type := EvKind × Bool
deriving instance DecidableEq, Repr for Event

/-- Instrumented `loadVault`: the events it performs (read, then key
derivation and decryption when the file parses), each tagged with the lock
state. -/
def loadVaultTrace (v : VaultClientM) (fs : Fs) :
    List Event × Except LoadError VaultData :=
  let held := lockHeldIn fs v.vaultPath
  match fs v.vaultPath with
  | none => ([(.readVault, held)], .error .readFailed)
  | some (.lockPid _) => ([(.readVault, held)], .error .badFileJson)
  | some (.raw _) => ([(.readVault, held)], .error .badFileJson)
  | some (.vaultJson vf) =>
    ([(.readVault, held), (.derive, held), (.decrypt, held)],
     match decryptVault v.password vf with
     | .error e => .error (.dec e)
     | .ok d => .ok d)

/-- Apply filesystem steps while recording, for each step, whether the lock
marker at `lockRef` existed when the step ran. -/
def runStepsEv (lockRef : String) (fs : Fs) :
    List FsStep → Fs × List Event
  | [] => (fs, [])
  | s :: rest =>
    let ev : Event := (.fsOp s, (fs lockRef).isSome)
    let (fs', evs) := runStepsEv lockRef (applyFsStep fs s) rest
    (fs', ev :: evs)

/-- Errors of the mutating session operations. -/
inductive SessionError where
  | load (e : LoadError)
  | profileNotFound
  deriving DecidableEq, Repr

/-- `VaultClient.CreateCredentials` from `vault.go`: load and decrypt the
current container, insert or overwrite the profile (only the two credential
fields are stored), then persist via `saveVault`.  Returns the instrumented
pre-save events together with the planned save steps (empty on failure the
filesystem is untouched). -/
def CreateCredentialsRun (v : VaultClientM) (fs : Fs)
    (profile accessKey secretKey : String) (salt nonce : List Nat) :
    List Event × Except SessionError (List FsStep) :=
  let (evs, r) := loadVaultTrace v fs
  match r with
  | .error e => (evs, .error (.load e))
  | .ok d =>
    let d' : VaultData :=
      ⟨insertProfile d.profiles profile ⟨accessKey, secretKey, "", ""⟩⟩
    let held := lockHeldIn fs v.vaultPath
    (evs ++ ([(.derive, held), (.encrypt, held)] : List Event),
     .ok (saveVaultSteps v d' salt nonce))

/-- `VaultClient.RemoveProfile` from `vault.go`: load and decrypt, fail if
the profile is absent, otherwise delete it and persist via `saveVault`. -/
def RemoveProfileRun (v : VaultClientM) (fs : Fs) (profile : String)
    (salt nonce : List Nat) :
    List Event × Except SessionError (List FsStep) :=
  let (evs, r) := loadVaultTrace v fs
  match r with
  | .error e => (evs, .error (.load e))
  | .ok d =>
    match lookupProfile d.profiles profile with
    | none => (evs, .error .profileNotFound)
    | some _ =>
      let d' : VaultData := ⟨removeProfileEntry d.profiles profile⟩
      let held := lockHeldIn fs v.vaultPath
      (evs ++ ([(.derive, held), (.encrypt, held)] : List Event),
       .ok (saveVaultSteps v d' salt nonce))

/-- `InitVault` from `vault.go`: refuse if a container already exists, check
the two password prompts match, then derive a key, encrypt an empty payload
and write the container directly to the vault path — without ever touching
the lock.  Events are tagged with the lock state at the time they run. -/
def InitVaultRun (fs : Fs) (vaultPath : String) (pw1 pw2 : String)
    (salt nonce : List Nat) : List Event × Fs × Except VError Unit :=
  if (fs vaultPath).isSome then ([], fs, .error .alreadyExists)
  else if pw1 ≠ pw2 then ([], fs, .error .passwordsDoNotMatch)
  else
    let held := lockHeldIn fs vaultPath
    let vf := encryptVault pw1 ⟨[]⟩ salt nonce
    let step : FsStep := .write vaultPath (.vaultJson vf)
    ([(.derive, held), (.encrypt, held), (.fsOp step, held)],
     applyFsStep fs step, .ok ())

/-! ## Derived-credential cache (`aws.go`, `commands.go`) -/

/-- `STSCredentials` from `aws.go`: a cached short-lived credential entry.
`credType` models the Go field `Type` ("session" or "federation");
`expiration` is a timestamp in seconds. -/
structure STSCredentials where
  accessKeyID : String
  secretAccessKey : String
  sessionToken : String
  expiration : Int
  region : String
  credType : String
  deriving DecidableEq, Repr

/-- Contents of a per-profile cache file: well-formed JSON or unparseable
bytes (e.g. a torn write). -/
inductive CacheContent where
  | json (c : STSCredentials)
  | raw (junk : Nat)
  deriving DecidableEq, Repr

/-- The cache directory: a partial map from file names to contents. -/
def CacheFs : Type := String → Option CacheContent

/-- Cache file name for a profile (`<cacheDir>/<profile>.json`). -/
def cacheFilePath (profile : String) : String := profile ++ ".json"

/-- The fixed safety buffer, in seconds (`5 * time.Minute`). -/
def fiveMinutes : Int := 300

/-- The cache-miss causes of `GetCachedCredentials`. -/
inductive CacheError where
  | readFailed
  | parseFailed
  | expired
  deriving DecidableEq, Repr

/-- `GetCachedCredentials` from `aws.go`: read and parse the per-profile
cache file; report the entry as expired when `time.Now().Add(5 *
time.Minute).After(creds.Expiration)`, i.e. when `now + 300` is strictly
greater than the stored expiration; otherwise return the entry. -/
def GetCachedCredentials (cfs : CacheFs) (now : Int) (profile : String) :
    Except CacheError STSCredentials :=
  match cfs (cacheFilePath profile) with
  | none => .error .readFailed
  | some (.raw _) => .error .parseFailed
  | some (.json c) =>
    if now + fiveMinutes > c.expiration then .error .expired
    else .ok c

/-- The cache consultation of `handleExec` in `commands.go`: any
`GetCachedCredentials` success is used as-is ("Using cached credentials");
any failure falls through to regeneration.  No field of the cached entry
other than the expiration is inspected. -/
inductive ExecDecision where
  | useCached (c : STSCredentials)
  | regenerate
  deriving DecidableEq, Repr

/-- The cache branch at the top of `handleExec` (`commands.go`). -/
def handleExecCacheConsult (cfs : CacheFs) (now : Int) (profile : String) :
    ExecDecision :=
  match GetCachedCredentials cfs now profile with
  | .ok c => .useCached c
  | .error _ => .regenerate

/-! ## Concrete fixtures used by witnesses and counterexamples -/

/-- A cache entry whose expiration is exactly five minutes after time 0. -/
def boundaryEntry : STSCredentials :=
  ⟨"AKIA", "SECRET", "TOKEN", 300, "us-east-1", "session"⟩

/-- A cache directory holding `boundaryEntry` for profile `x`. -/
def boundaryCacheFs : CacheFs :=
  fun p => if p = "x.json" then some (.json boundaryEntry) else none

/-- A cache entry valid for well over five minutes. -/
def freshEntry : STSCredentials :=
  ⟨"AKIA", "SECRET", "TOKEN", 3600, "us-east-1", "session"⟩

/-- A cache directory holding `freshEntry` for profile `x`. -/
def freshCacheFs : CacheFs :=
  fun p => if p = "x.json" then some (.json freshEntry) else none

/-- An unexpired federation-kind cache entry. -/
def federationEntry : STSCredentials :=
  ⟨"AKIA", "SECRET", "TOKEN", 3600, "us-east-1", "federation"⟩

/-- A cache directory holding `federationEntry` for profile `x`. -/
def federationCacheFs : CacheFs :=
  fun p => if p = "x.json" then some (.json federationEntry) else none

/-- A concrete vault payload with one profile. -/
def sampleData : VaultData := ⟨[("prod", ⟨"AK", "SK", "", ""⟩)]⟩

/-- A concrete container encrypted under password `pw`. -/
def sampleVaultFile : VaultFile := encryptVault "pw" sampleData [0] [1]

/-- A filesystem holding `sampleVaultFile` at path `v`, with no lock. -/
def sampleFs : Fs :=
  fun p => if p = "v" then some (.vaultJson sampleVaultFile) else none

/-- A filesystem holding a version-2 (unsupported) container at path `v`. -/
def badVersionFs : Fs :=
  fun p => if p = "v" then some (.vaultJson { sampleVaultFile with version := 2 })
    else none

/-- `sampleFs` with the lock marker for `v` present. -/
def sampleFsLocked : Fs :=
  setFile sampleFs (lockPathOf "v") (.lockPid 7)

/-- The empty filesystem. -/
def emptyFs : Fs := fun _ => none

/-- The session under password `pw` on path `v`. -/
def sampleClient : VaultClientM := ⟨"v", "pw"⟩

/-- Round-trip helper shared by several claim theorems. -/
theorem decrypt_encrypt_roundtrip (password : String) (data : VaultData)
    (salt nonce : List Nat) :
    decryptVault password (encryptVault password data salt nonce) = .ok data := by
  simp [decryptVault, encryptVault, gcmSeal, gcmOpen, marshalVaultData,
    unmarshalVaultData, deriveKey]

/-- The vault path differs from its temporary sibling. -/
theorem vaultPath_ne_tmpPath (s : String) : s ≠ tmpPathOf s := by
  intro h
  have hlen := congrArg String.length h
  simp [tmpPathOf, String.length_append] at hlen
  exact absurd hlen (by decide)

/-- The vault path differs from its lock sibling. -/
theorem vaultPath_ne_lockPath (s : String) : s ≠ lockPathOf s := by
  intro h
  have hlen := congrArg String.length h
  simp [lockPathOf, String.length_append] at hlen
  exact absurd hlen (by decide)

/-- The lock sibling differs from the temporary sibling. -/
theorem lockPath_ne_tmpPath (s : String) : lockPathOf s ≠ tmpPathOf s := by
  intro h
  have hlen := congrArg String.length h
  simp [lockPathOf, tmpPathOf, String.length_append] at hlen
  exact absurd hlen (by decide)

/-- Writing the temporary sibling does not change the file at the vault
path. -/
theorem setFile_tmp_preserves (fs : Fs) (s : String) (c : FileContent) :
    setFile fs (tmpPathOf s) c s = fs s := by
  simp [setFile, vaultPath_ne_tmpPath s]

/-- Neither writing the temporary sibling nor renaming it touches the lock
marker. -/
theorem lock_preserved_by_save (fs : Fs) (s : String) (c : FileContent) :
    setFile fs (tmpPathOf s) c (lockPathOf s) = fs (lockPathOf s) ∧
    renameFile fs (tmpPathOf s) s (lockPathOf s) = fs (lockPathOf s) := by
  constructor
  · simp [setFile, lockPath_ne_tmpPath s]
  · simp [renameFile, lockPath_ne_tmpPath s, (vaultPath_ne_lockPath s).symm]

/-- Adding or removing the lock marker does not change the container file. -/
theorem vaultFile_ignores_lock (fs : Fs) (s : String) (c : FileContent) :
    setFile fs (lockPathOf s) c s = fs s ∧
    removeFile fs (lockPathOf s) s = fs s := by
  constructor
  · simp [setFile, vaultPath_ne_lockPath s]
  · simp [removeFile, vaultPath_ne_lockPath s]

/-- Decryption with a key whose tag check fails returns `.error .authFailed`. -/
theorem decrypt_auth_fail (password : String) (vf : VaultFile)
    (salt nonce : List Nat) (ct : GCMCiphertext)
    (hv : vf.version = vaultVersion) (hs : vf.salt = some salt)
    (hn : vf.nonce = some nonce) (hd : vf.data = some ct)
    (hopen : gcmOpen (deriveKey password salt) nonce ct = none) :
    decryptVault password vf = .error .authFailed := by
  simp [decryptVault, hv, hs, hn, hd, hopen]

/-- C1: For every password P and every vault payload D, decrypting the
container produced by encrypting D under P with the same password P returns
exactly D (round-trip identity), for every pair of random draws. -/
theorem C1_decrypt_encrypt_id (password : String) (data : VaultData)
    (salt nonce : List Nat) :
    decryptVault password (encryptVault password data salt nonce) = .ok data :=
  decrypt_encrypt_roundtrip password data salt nonce

/-- C10: A container whose `version` field differs from the single supported
version (1) fails to decrypt with `.error .badVersion`, even when the password
is correct and salt, nonce and ciphertext are intact. -/
theorem C10_bad_version_rejected (password : String) (data : VaultData)
    (salt nonce : List Nat) (v : Int) (hv : v ≠ vaultVersion) :
    decryptVault password
      { encryptVault password data salt nonce with version := v } =
      .error .badVersion := by
  simp [decryptVault, hv]

/-- C10 witness: a version-2 container is rejected outright. -/
theorem C10_bad_version_rejected_witness :
    decryptVault "pw"
      { encryptVault "pw" ⟨[]⟩ [0] [1] with version := 2 } =
      .error .badVersion :=
  C10_bad_version_rejected "pw" ⟨[]⟩ [0] [1] 2 (by decide)

/-- C2: Decrypting a container encrypted under P1 with a different password
P2 fails with the authentication-failure error and never returns partial or
garbage plaintext; more generally, decryption fails whenever the
authentication tag of the ciphertext does not verify. -/
theorem C2_wrong_password_fails (p1 p2 : String) (data : VaultData)
    (salt nonce : List Nat) (hne : p1 ≠ p2) :
    decryptVault p2 (encryptVault p1 data salt nonce) = .error .authFailed ∧
    ∀ (pw : String) (vf : VaultFile) (s n : List Nat) (ct : GCMCiphertext),
      vf.version = vaultVersion → vf.salt = some s → vf.nonce = some n →
      vf.data = some ct → gcmOpen (deriveKey pw s) n ct = none →
      decryptVault pw vf = .error .authFailed := by
  constructor
  · have : ¬ ((deriveKey p1 salt, nonce, marshalVaultData data) =
        (deriveKey p2 salt, nonce, marshalVaultData data)) := fun h =>
      hne (congrArg (fun t => t.1.1) h)
    simp [decryptVault, encryptVault, gcmSeal, gcmOpen, this]
  · intro pw vf s n ct hv hs hn hd hopen
    exact decrypt_auth_fail pw vf s n ct hv hs hn hd hopen

/-- C2 witness: decryption of a concrete container under the wrong password
fails with the authentication error. -/
theorem C2_wrong_password_fails_witness :
    decryptVault "p2" (encryptVault "p1" ⟨[("x", ⟨"AK", "SK", "", ""⟩)]⟩ [0] [1]) =
      .error .authFailed :=
  (C2_wrong_password_fails "p1" "p2" ⟨[("x", ⟨"AK", "SK", "", ""⟩)]⟩ [0] [1]
    (by decide)).1

/-- C4: Two encryptions of the same payload D under the same password P with
independent fresh random draws (distinct salts, distinct nonces) produce
containers with different salt, different nonce and different ciphertext,
both of which decrypt under P to the identical payload D; moreover the
derived keys differ, so a nonce is never reused with the same key. -/
theorem C4_fresh_randomness (password : String) (data : VaultData)
    (s1 n1 s2 n2 : List Nat) (hs : s1 ≠ s2) (hn : n1 ≠ n2) :
    (encryptVault password data s1 n1).salt ≠
      (encryptVault password data s2 n2).salt ∧
    (encryptVault password data s1 n1).nonce ≠
      (encryptVault password data s2 n2).nonce ∧
    (encryptVault password data s1 n1).data ≠
      (encryptVault password data s2 n2).data ∧
    decryptVault password (encryptVault password data s1 n1) = .ok data ∧
    decryptVault password (encryptVault password data s2 n2) = .ok data ∧
    deriveKey password s1 ≠ deriveKey password s2 := by
  refine ⟨?_, ?_, ?_, decrypt_encrypt_roundtrip .., decrypt_encrypt_roundtrip .., ?_⟩
  · simp [encryptVault, hs]
  · simp [encryptVault, hn]
  · intro h
    have h2 : gcmSeal (deriveKey password s1) n1 (marshalVaultData data) =
        gcmSeal (deriveKey password s2) n2 (marshalVaultData data) := by
      simpa [encryptVault] using h
    exact hn (congrArg (fun c => c.tag.2.1) h2)
  · exact fun h => hs (congrArg Prod.snd h)

/-- C4 witness: two concrete encryptions with distinct draws differ in salt,
nonce and ciphertext yet both decrypt to the same payload. -/
theorem C4_fresh_randomness_witness :
    (encryptVault "pw" ⟨[]⟩ [0] [1]).salt ≠ (encryptVault "pw" ⟨[]⟩ [2] [3]).salt ∧
    (encryptVault "pw" ⟨[]⟩ [0] [1]).nonce ≠ (encryptVault "pw" ⟨[]⟩ [2] [3]).nonce ∧
    (encryptVault "pw" ⟨[]⟩ [0] [1]).data ≠ (encryptVault "pw" ⟨[]⟩ [2] [3]).data ∧
    decryptVault "pw" (encryptVault "pw" ⟨[]⟩ [0] [1]) = .ok ⟨[]⟩ ∧
    decryptVault "pw" (encryptVault "pw" ⟨[]⟩ [2] [3]) = .ok ⟨[]⟩ ∧
    deriveKey "pw" [0] ≠ deriveKey "pw" [2] :=
  C4_fresh_randomness "pw" ⟨[]⟩ [0] [1] [2] [3] (by decide) (by decide)

/-- C3: Every mutating vault operation (`CreateCredentials`, `RemoveProfile`)
persists only through `saveVault`'s two steps — write the new container to the
temporary sibling and rename it over the real path — and interrupting the
sequence at any point before the rename leaves the original on-disk container
at the vault path byte-for-byte unchanged and still decryptable with the
original password. -/
theorem C3_atomic_save (v : VaultClientM) (fs : Fs)
    (profile accessKey secretKey : String) (salt nonce : List Nat) :
    (∀ evs steps,
       CreateCredentialsRun v fs profile accessKey secretKey salt nonce =
         (evs, .ok steps) →
       ∃ d', steps = saveVaultSteps v d' salt nonce) ∧
    (∀ evs steps,
       RemoveProfileRun v fs profile salt nonce = (evs, .ok steps) →
       ∃ d', steps = saveVaultSteps v d' salt nonce) ∧
    (∀ (d' : VaultData) (k : Nat), k ≤ 1 →
       runFsSteps fs ((saveVaultSteps v d' salt nonce).take k) v.vaultPath =
         fs v.vaultPath) ∧
    (∀ (p : String) (d0 : VaultData) (s0 n0 : List Nat) (d' : VaultData)
       (k : Nat), k ≤ 1 →
       fs v.vaultPath = some (.vaultJson (encryptVault p d0 s0 n0)) →
       runFsSteps fs ((saveVaultSteps v d' salt nonce).take k) v.vaultPath =
         some (.vaultJson (encryptVault p d0 s0 n0)) ∧
       decryptVault p (encryptVault p d0 s0 n0) = .ok d0) := by
  have hk : ∀ (d' : VaultData) (k : Nat), k ≤ 1 →
      runFsSteps fs ((saveVaultSteps v d' salt nonce).take k) v.vaultPath =
        fs v.vaultPath := by
    intro d' k hkle
    match k, hkle with
    | 0, _ => rfl
    | 1, _ =>
      show setFile fs (tmpPathOf v.vaultPath) _ v.vaultPath = fs v.vaultPath
      exact setFile_tmp_preserves ..
  refine ⟨?_, ?_, hk, ?_⟩
  · intro evs steps h
    rcases hl : loadVaultTrace v fs with ⟨evs0, r⟩
    cases r with
    | error e => simp [CreateCredentialsRun, hl] at h
    | ok d =>
      simp [CreateCredentialsRun, hl] at h
      exact ⟨_, h.2.symm⟩
  · intro evs steps h
    rcases hl : loadVaultTrace v fs with ⟨evs0, r⟩
    cases r with
    | error e => simp [RemoveProfileRun, hl] at h
    | ok d =>
      cases hp : lookupProfile d.profiles profile with
      | none => simp [RemoveProfileRun, hl, hp] at h
      | some pd =>
        simp [RemoveProfileRun, hl, hp] at h
        exact ⟨_, h.2.symm⟩
  · intro p d0 s0 n0 d' k hkle hfile
    refine ⟨?_, decrypt_encrypt_roundtrip ..⟩
    rw [hk d' k hkle, hfile]

/-- C3 witness: interrupting a concrete save after the temp-file write leaves
the sample container in place and decryptable. -/
theorem C3_atomic_save_witness :
    runFsSteps sampleFs
        ((saveVaultSteps sampleClient ⟨[]⟩ [2] [3]).take 1)
        sampleClient.vaultPath =
      some (.vaultJson (encryptVault "pw" sampleData [0] [1])) ∧
    decryptVault "pw" (encryptVault "pw" sampleData [0] [1]) = .ok sampleData :=
  (C3_atomic_save sampleClient sampleFs "prod" "AK" "SK" [2] [3]).2.2.2
    "pw" sampleData [0] [1] ⟨[]⟩ 1 (by decide) rfl

/-- Trial decryption is unaffected by the lock marker. -/
theorem verifyPassword_ignores_lock (fs : Fs) (vaultPath pw : String)
    (c : FileContent) :
    verifyPassword (setFile fs (lockPathOf vaultPath) c) vaultPath pw =
      verifyPassword fs vaultPath pw := by
  unfold verifyPassword loadVault
  rw [show setFile fs (lockPathOf vaultPath) c vaultPath = fs vaultPath from
    (vaultFile_ignores_lock fs vaultPath c).1]

/-- C5: During `open` (`NewVaultClient`), every decrypt failure — unsupported
version, malformed container JSON or base64 fields, or authentication
failure — is collapsed into the single undifferentiated
`incorrectPasswordOrCorrupted` error before reaching the caller: the result
is one constant error value regardless of the cause. -/
theorem C5_open_error_collapse (fs : Fs) (vaultPath : String) (pid : Nat)
    (pw : String) (hexists : (fs vaultPath).isSome = true)
    (hlock : fs (lockPathOf vaultPath) = none)
    (hfail : ∃ e, verifyPassword fs vaultPath pw = .error e) :
    (NewVaultClientRun fs vaultPath pid (.ok pw)).1 =
      .error .incorrectPasswordOrCorrupted := by
  obtain ⟨e, he⟩ := hfail
  unfold NewVaultClientRun acquireVaultLock
  rw [hlock]
  simp only [Option.isSome_none, Bool.false_eq_true, if_false,
    Option.isNone_iff_eq_none]
  rw [if_neg (by intro h; rw [h] at hexists; simp at hexists)]
  rw [verifyPassword_ignores_lock fs vaultPath pw (.lockPid pid), he]

/-- C5 witness: a wrong-version container and a wrong password both surface
as the same `incorrectPasswordOrCorrupted` error at `open`. -/
theorem C5_open_error_collapse_witness :
    (NewVaultClientRun badVersionFs "v" 9 (.ok "pw")).1 =
      .error .incorrectPasswordOrCorrupted ∧
    (NewVaultClientRun sampleFs "v" 9 (.ok "wrong")).1 =
      .error .incorrectPasswordOrCorrupted :=
  ⟨C5_open_error_collapse badVersionFs "v" 9 "pw" (by decide) (by decide)
      ⟨.dec .badVersion, by rfl⟩,
   C5_open_error_collapse sampleFs "v" 9 "wrong" (by decide) (by decide)
      ⟨.dec .authFailed, by rfl⟩⟩

/-- C8: At most one session holds the lock for a vault path at a time:
while the `.lock` marker exists any acquire fails immediately with the
contended error (the function is a single exclusive-create test, with no
blocking, waiting or retrying); after a successful acquire a second acquire
fails; and after the holder's `Close` removes the marker, a subsequent
acquire succeeds. -/
theorem C8_lock_mutual_exclusion (fs : Fs) (vaultPath pw : String)
    (pid pid2 pid3 : Nat) :
    ((fs (lockPathOf vaultPath)).isSome = true →
       acquireVaultLock fs vaultPath pid = .error .contended) ∧
    (∀ fs1, acquireVaultLock fs vaultPath pid = .ok fs1 →
       acquireVaultLock fs1 vaultPath pid2 = .error .contended ∧
       acquireVaultLock (closeVaultClient ⟨vaultPath, pw⟩ fs1) vaultPath pid3 =
         .ok (setFile (closeVaultClient ⟨vaultPath, pw⟩ fs1)
           (lockPathOf vaultPath) (.lockPid pid3))) := by
  constructor
  · intro h
    simp [acquireVaultLock, h]
  · intro fs1 h
    unfold acquireVaultLock at h
    by_cases hl : (fs (lockPathOf vaultPath)).isSome
    · simp [hl] at h
    · simp only [hl, if_false, Bool.false_eq_true] at h
      cases h with
      | refl =>
        constructor
        · simp [acquireVaultLock, setFile]
        · simp [acquireVaultLock, closeVaultClient, removeFile]

/-- C8 witness: on a concrete filesystem the first acquire succeeds, the
second fails with the contended error, and after close a third succeeds. -/
theorem C8_lock_mutual_exclusion_witness :
    acquireVaultLock (setFile sampleFs (lockPathOf "v") (.lockPid 1)) "v" 2 =
      .error .contended ∧
    acquireVaultLock
        (closeVaultClient ⟨"v", "pw"⟩ (setFile sampleFs (lockPathOf "v") (.lockPid 1)))
        "v" 3 =
      .ok (setFile
        (closeVaultClient ⟨"v", "pw"⟩ (setFile sampleFs (lockPathOf "v") (.lockPid 1)))
        (lockPathOf "v") (.lockPid 3)) :=
  (C8_lock_mutual_exclusion sampleFs "v" "pw" 1 2 3).2
    (setFile sampleFs (lockPathOf "v") (.lockPid 1)) (by rfl)

/-- C9 counterexample: `InitVault` succeeds on an empty filesystem and its
trace contains a write of the vault container performed while the lock is NOT
held — refuting the claim that every vault file operation happens only while
the vault lock is held. -/
theorem C9_initvault_unlocked_write :
    (InitVaultRun emptyFs "v" "pw" "pw" [0] [1]).2.2 = .ok () ∧
    ((.fsOp (.write "v" (.vaultJson (encryptVault "pw" ⟨[]⟩ [0] [1]))), false) ∈
      (InitVaultRun emptyFs "v" "pw" "pw" [0] [1]).1) ∧
    (∀ e ∈ (InitVaultRun emptyFs "v" "pw" "pw" [0] [1]).1, e.2 = false) := by
  refine ⟨rfl, ?_, ?_⟩
  · show _ ∈ ([(.derive, false), (.encrypt, false),
      (.fsOp (.write "v" (.vaultJson (encryptVault "pw" ⟨[]⟩ [0] [1]))), false)] :
        List Event)
    exact .tail _ (.tail _ (.head _))
  · intro e he
    have : (InitVaultRun emptyFs "v" "pw" "pw" [0] [1]).1 =
        ([(.derive, false), (.encrypt, false),
          (.fsOp (.write "v" (.vaultJson (encryptVault "pw" ⟨[]⟩ [0] [1]))),
            false)] : List Event) := rfl
    rw [this] at he
    rcases he with _ | ⟨_, _ | ⟨_, _ | ⟨_, h⟩⟩⟩ <;> first | rfl | cases h

/-- C9 (amended): All vault I/O performed through an open `VaultClient`
session — the read/derive/decrypt of `loadVault`, the derive/encrypt of
`saveVault`, and the temp-file write and rename it schedules — happens while
the lock marker is present, and `NewVaultClient` leaves the lock held exactly
on success: on every error exit path (missing vault, contention, failed
password read, failed verification) the lock marker is absent afterwards.
(`InitVault`, by contrast, writes the initial container without the lock —
see the counterexample.) -/
theorem C9_session_ops_locked (v : VaultClientM) (fs fs2 : Fs)
    (profile accessKey secretKey vaultPath : String) (salt nonce : List Nat)
    (pid : Nat) (pwRead : Except Unit String)
    (hheld : lockHeldIn fs v.vaultPath = true)
    (hfree : fs2 (lockPathOf vaultPath) = none) :
    ((CreateCredentialsRun v fs profile accessKey secretKey salt nonce).1.all
        (fun e => e.2) = true) ∧
    ((RemoveProfileRun v fs profile salt nonce).1.all (fun e => e.2) = true) ∧
    (∀ d : VaultData,
       ((runStepsEv (lockPathOf v.vaultPath) fs
           (saveVaultSteps v d salt nonce)).2.all (fun e => e.2)) = true) ∧
    (∀ c fs', NewVaultClientRun fs2 vaultPath pid pwRead = (.ok c, fs') →
       fs' (lockPathOf vaultPath) = some (.lockPid pid)) ∧
    (∀ err fs', NewVaultClientRun fs2 vaultPath pid pwRead = (.error err, fs') →
       fs' (lockPathOf vaultPath) = none) := by
  have hheld' : (fs (lockPathOf v.vaultPath)).isSome = true := hheld
  have hload : ∀ evs0 r, loadVaultTrace v fs = (evs0, r) →
      evs0.all (fun e => e.2) = true := by
    intro evs0 r hl
    unfold loadVaultTrace at hl
    cases hf : fs v.vaultPath with
    | none =>
      rw [hf] at hl
      injection hl with h1 h2
      subst h1
      simp [lockHeldIn, hheld']
    | some c =>
      rw [hf] at hl
      cases c <;>
        (injection hl with h1 h2
         subst h1
         simp [lockHeldIn, hheld'])
  refine ⟨?_, ?_, ?_, ?_, ?_⟩
  · rcases hl : loadVaultTrace v fs with ⟨evs0, r⟩
    have hev := hload evs0 r hl
    cases r with
    | error e => simp [CreateCredentialsRun, hl, hev]
    | ok d =>
      simp [CreateCredentialsRun, hl, hev, List.all_append, lockHeldIn, hheld']
  · rcases hl : loadVaultTrace v fs with ⟨evs0, r⟩
    have hev := hload evs0 r hl
    cases r with
    | error e => simp [RemoveProfileRun, hl, hev]
    | ok d =>
      cases hp : lookupProfile d.profiles profile with
      | none => simp [RemoveProfileRun, hl, hp, hev]
      | some pd =>
        simp [RemoveProfileRun, hl, hp, hev, List.all_append, lockHeldIn, hheld']
  · intro d
    have h1 : setFile fs (tmpPathOf v.vaultPath)
        (.vaultJson (encryptVault v.password d salt nonce))
        (lockPathOf v.vaultPath) = fs (lockPathOf v.vaultPath) :=
      (lock_preserved_by_save ..).1
    simp [saveVaultSteps, runStepsEv, applyFsStep, h1, hheld']
  · intro c fs' h
    unfold NewVaultClientRun acquireVaultLock at h
    rw [hfree] at h
    simp only [Option.isSome_none, Bool.false_eq_true, if_false] at h
    split at h
    · exact absurd (congrArg Prod.fst h) (by simp)
    · split at h
      · exact absurd (congrArg Prod.fst h) (by simp)
      · split at h
        · exact absurd (congrArg Prod.fst h) (by simp)
        · rw [Prod.mk.injEq] at h
          obtain ⟨h1, h2⟩ := h
          subst h2
          simp [setFile]
  · intro err fs' h
    unfold NewVaultClientRun acquireVaultLock at h
    rw [hfree] at h
    simp only [Option.isSome_none, Bool.false_eq_true, if_false] at h
    split at h
    · rw [Prod.mk.injEq] at h
      obtain ⟨h1, h2⟩ := h
      subst h2
      exact hfree
    · split at h
      · rw [Prod.mk.injEq] at h
        obtain ⟨h1, h2⟩ := h
        subst h2
        simp [removeFile]
      · split at h
        · rw [Prod.mk.injEq] at h
          obtain ⟨h1, h2⟩ := h
          subst h2
          simp [removeFile]
        · exact absurd (congrArg Prod.fst h) (by simp)

/-- C9 witness: on a concrete filesystem with the lock marker present the
session operations run entirely under the lock, and on a lock-free
filesystem `NewVaultClient` leaves the marker held exactly on success. -/
theorem C9_session_ops_locked_witness :
    ((CreateCredentialsRun sampleClient sampleFsLocked "p" "AK" "SK" [2] [3]).1.all
        (fun e => e.2) = true) ∧
    ((RemoveProfileRun sampleClient sampleFsLocked "p" [2] [3]).1.all
        (fun e => e.2) = true) ∧
    (∀ d : VaultData,
       ((runStepsEv (lockPathOf sampleClient.vaultPath) sampleFsLocked
           (saveVaultSteps sampleClient d [2] [3])).2.all (fun e => e.2)) = true) ∧
    (∀ c fs', NewVaultClientRun sampleFs "v" 9 (.ok "pw") = (.ok c, fs') →
       fs' (lockPathOf "v") = some (.lockPid 9)) ∧
    (∀ err fs', NewVaultClientRun sampleFs "v" 9 (.ok "pw") = (.error err, fs') →
       fs' (lockPathOf "v") = none) :=
  C9_session_ops_locked sampleClient sampleFsLocked sampleFs "p" "AK" "SK" "v"
    [2] [3] 9 (.ok "pw") (by decide) (by decide)

/-- C6 counterexample: the claim says an entry whose expiration is exactly
five minutes from now is a miss (`now + 5min >= expiration`), but the code
uses `time.Now().Add(5m).After(exp)`, a strict comparison: at the boundary
the entry is returned as valid, not as a miss. -/
theorem C6_boundary_entry_is_hit :
    GetCachedCredentials boundaryCacheFs 0 "x" = .ok boundaryEntry ∧
    (0 : Int) + fiveMinutes ≥ boundaryEntry.expiration := by
  constructor
  · rfl
  · decide

/-- C6 (amended): the cache read returns a miss exactly when the cache file
is missing, fails to parse, or `now + 5 minutes` is STRICTLY after the
entry's expiration; an entry expiring exactly five minutes from now — and any
entry expiring later than that — is returned as valid. -/
theorem C6_cache_miss_iff (cfs : CacheFs) (now : Int) (profile : String) :
    (cfs (cacheFilePath profile) = none →
       GetCachedCredentials cfs now profile = .error .readFailed) ∧
    (∀ j, cfs (cacheFilePath profile) = some (.raw j) →
       GetCachedCredentials cfs now profile = .error .parseFailed) ∧
    (∀ e, cfs (cacheFilePath profile) = some (.json e) →
       (now + fiveMinutes > e.expiration →
          GetCachedCredentials cfs now profile = .error .expired) ∧
       (¬ now + fiveMinutes > e.expiration →
          GetCachedCredentials cfs now profile = .ok e)) := by
  refine ⟨?_, ?_, ?_⟩
  · intro h
    simp [GetCachedCredentials, h]
  · intro j h
    simp [GetCachedCredentials, h]
  · intro e h
    constructor
    · intro hexp
      simp [GetCachedCredentials, h, hexp]
    · intro hexp
      simp [GetCachedCredentials, h, hexp]

/-- C6 witness: a freshly written entry (expiring in an hour) is returned as
valid by the characterization. -/
theorem C6_cache_miss_iff_witness :
    GetCachedCredentials freshCacheFs 0 "x" = .ok freshEntry :=
  ((C6_cache_miss_iff freshCacheFs 0 "x").2.2 freshEntry rfl).2 (by decide)

/-- C7 (code evaluated at the failing input): the cache consultation of
`handleExec` uses an unexpired cached entry of kind `federation` as-is — the
entry's `Type` field is never inspected — although `exec` needs a
session-kind credential; the repository's own e2e test
`TestCredentialTypeIsolation` requires this situation to be a miss. -/
theorem C7_wrong_kind_entry_used :
    handleExecCacheConsult federationCacheFs 0 "x" = .useCached federationEntry ∧
    federationEntry.credType = "federation" := by
  constructor
  · rfl
  · rfl
